import Mathlib

/-!
Verification of `src/azure_vm.py` (instruqt-cloud-scripts).

The script is a straight-line provisioning workflow.  We embed it as a pure
function `AzureVM.run : World → List Event` where `World` supplies everything
the script reads from its surroundings (environment variables, the listing of
pre-existing resource groups, the wall clock readings, the SSH key file and
the successive results of polling the public-IP GET endpoint), and the
returned event list is the chronological trace of the observable actions the
script performs: provider-API calls, stdout prints, stderr prints, sleeps,
file writes and process exits.
-/

namespace AzureVM

end AzureVM

/-- Parameters of one NSG security rule, fields in the order of `rule_params`
(src lines 89-98): protocol, source address, destination address,
access, direction, priority, destination port range, source port range. -/
structure AzureVM.SecurityRuleParams where
  protocol : String
  sourceAddress : String
  destinationAddress : String
  access : String
  direction : String
  priority : Nat
  destinationPortRange : String
  sourcePortRange : String
  deriving DecidableEq

namespace AzureVM

/-- Observable action of the script, in chronological order.  The constructors
are exactly the side effects occurring in `src/azure_vm.py`: the provider-API
calls (resource-group list line 51, resource-group create line 59, virtual
network line 72, subnet line 75, NSG line 81, security rule line 99, public IP
line 110, NIC line 124, VM line 169, public-IP GET lines 172/182), stdout
prints, stderr prints, `time.sleep`, the details-file write (line 215) and
`sys.exit`.  The source issues no delete, update-in-place or rollback call, so
no such constructor exists. -/
inductive Event where
  | print (s : String)
  | printStderr (s : String)
  | exit (code : Nat)
  | sleep (seconds : Nat)
  | writeFile (path content : String)
  | apiListResourceGroups
  | apiCreateResourceGroup (name location : String)
  | apiCreateVirtualNetwork (rg name location cidr : String)
  | apiCreateSubnet (rg vnet name cidr : String)
  | apiCreateNetworkSecurityGroup (rg name location : String)
  | apiCreateSecurityRule (rg nsg name : String) (params : SecurityRuleParams)
  | apiCreatePublicIP (rg name location : String)
  | apiCreateNetworkInterface (rg name location subnetId pubipId nsgId : String)
  | apiCreateVirtualMachine (rg name location nicId sshKey : String)
  | apiGetPublicIP (rg name : String)
  deriving DecidableEq

/-- The process environment as an association list (keys unique in practice);
`List.lookup` is `os.environ.get`. -/
abbrev EnvMap := List (String × String)

/-- Python truthiness of an `Optional[str]`: `None` and the empty string are
falsy, every other string is truthy. -/
def truthyO : Option String → Bool
  | none => false
  | some s => !(s == "")

/-- The error text printed by `get_env_variable` (src line 15). -/
def envErrMsg (var_name : String) : String :=
  "Error: Environment variable " ++ var_name ++ " is required."

/-- Embeds `get_env_variable` (src lines 12-17).  Returns the events it emits
and `some value` when it returns normally, or `none` when it calls
`sys.exit(1)`. -/
def get_env_variable (env : EnvMap) (var_name : String) (required : Bool)
    (default : Option String) : List Event × Option (Option String) :=
  let value : Option String :=
    match List.lookup var_name env with
    | some v => some v
    | none => default
  if required = true ∧ truthyO value = false then
    ([Event.printStderr (envErrMsg var_name), Event.exit 1], none)
  else
    ([], some value)

/-- Derived variable name (src line 21). -/
def spnIdVar (instr_sub : String) : String :=
  "INSTRUQT_AZURE_SUBSCRIPTION_" ++ instr_sub ++ "_SPN_ID"

/-- Derived variable name (src line 22). -/
def spnPasswordVar (instr_sub : String) : String :=
  "INSTRUQT_AZURE_SUBSCRIPTION_" ++ instr_sub ++ "_SPN_PASSWORD"

/-- Derived variable name (src line 23). -/
def tenantIdVar (instr_sub : String) : String :=
  "INSTRUQT_AZURE_SUBSCRIPTION_" ++ instr_sub ++ "_TENANT_ID"

/-- The service-principal credentials read at src lines 20-28, fields in
order: instr_sub, spn_id, spn_password, tenant_id, subscription_id. -/
structure Creds where
  instr_sub : String
  spn_id : String
  spn_password : String
  tenant_id : String
  subscription_id : String
  deriving DecidableEq

/-- Embeds the credential-reading prologue (src lines 20-28): five
`get_env_variable` calls, each of which may exit the process. -/
def readCreds (env : EnvMap) : List Event × Option Creds :=
  match get_env_variable env "INSTRUQT_AZURE_SUBSCRIPTIONS" true none with
  | (evs1, none) => (evs1, none)
  | (evs1, some v1) =>
    let instr_sub := v1.getD ""
    match get_env_variable env (spnIdVar instr_sub) true none with
    | (evs2, none) => (evs1 ++ evs2, none)
    | (evs2, some v2) =>
      match get_env_variable env (spnPasswordVar instr_sub) true none with
      | (evs3, none) => (evs1 ++ evs2 ++ evs3, none)
      | (evs3, some v3) =>
        match get_env_variable env (tenantIdVar instr_sub) true none with
        | (evs4, none) => (evs1 ++ evs2 ++ evs3 ++ evs4, none)
        | (evs4, some v4) =>
          match get_env_variable env "AZURE_SUBSCRIPTION_ID" true none with
          | (evs5, none) => (evs1 ++ evs2 ++ evs3 ++ evs4 ++ evs5, none)
          | (evs5, some v5) =>
            (evs1 ++ evs2 ++ evs3 ++ evs4 ++ evs5,
             some ⟨instr_sub, v2.getD "", v3.getD "", v4.getD "", v5.getD ""⟩)

/-- Everything the script reads from its surroundings.  Fields in order:
environment variables; the resource groups returned by
`resource_groups.list()` (line 51); the successive readings of
`int(time.time())` (the script takes at most five); the `.id` values the API
returns for the subnet, public IP, NSG and NIC; whether
`~/.ssh/id_rsa.pub` exists and its content; the expansion of `~`; and the
`ip_address` field returned by the n-th public-IP GET (line 172 is reading 0,
the in-loop GET at line 182 gives readings 1, 2, ...). -/
structure World where
  env : EnvMap
  existingRGs : List String
  times : Nat → Nat
  subnetId : String
  pubipId : String
  nsgId : String
  nicId : String
  sshKeyExists : Bool
  sshKeyContent : String
  home : String
  ipAtPoll : Nat → Option String

/-- `os.environ.get("AZURE_LOCATION", "eastus")` (src line 29). -/
def locationOf (w : World) : String :=
  (List.lookup "AZURE_LOCATION" w.env).getD "eastus"

/-- The `else` branch of the resource-group determination (src lines 50-59):
list the existing groups, use the first if any, otherwise create
`ArmResourceGroup-<time>`.  Returns the events, the chosen name and the next
unread clock index. -/
def rgAuto (w : World) : List Event × String × Nat :=
  match w.existingRGs with
  | rg0 :: _ =>
    ([Event.apiListResourceGroups,
      Event.print ("Found existing resource group: " ++ rg0)], rg0, 0)
  | [] =>
    let name := "ArmResourceGroup-" ++ toString (w.times 0)
    ([Event.apiListResourceGroups,
      Event.print ("No existing resource groups found; creating new one: " ++ name),
      Event.apiCreateResourceGroup name (locationOf w)], name, 1)

/-- Embeds the resource-group determination (src lines 45-59).  A set and
non-empty `AZURE_RESOURCE_GROUP` is used directly (Python truthiness), else
the `rgAuto` branch runs. -/
def rgPhase (w : World) : List Event × String × Nat :=
  match List.lookup "AZURE_RESOURCE_GROUP" w.env with
  | some v =>
    if v == "" then rgAuto w
    else ([Event.print ("Using resource group from AZURE_RESOURCE_GROUP: " ++ v)], v, 0)
  | none => rgAuto w

/-- The `rg_name` the run works with. -/
def rg_nameOf (w : World) : String := (rgPhase w).2.1

/-- Index of the first clock reading not consumed by the resource-group step. -/
def tbase (w : World) : Nat := (rgPhase w).2.2

/-- `vnet_name` (src line 62). -/
def vnet_nameOf (w : World) : String := "ArmVNet-" ++ rg_nameOf w

/-- `nsg_name` (src line 78). -/
def nsg_nameOf (w : World) : String :=
  "ArmNSG-" ++ rg_nameOf w ++ "-" ++ toString (w.times (tbase w))

/-- `pubip_name` (src line 103). -/
def pubip_nameOf (w : World) : String :=
  "ArmPublicIP-" ++ rg_nameOf w ++ "-" ++ toString (w.times (tbase w + 1))

/-- `nic_name` (src line 113). -/
def nic_nameOf (w : World) : String :=
  "ArmNIC-" ++ rg_nameOf w ++ "-" ++ toString (w.times (tbase w + 2))

/-- `vm_name` (src line 127). -/
def vm_nameOf (w : World) : String :=
  "ArmVM-" ++ rg_nameOf w ++ "-" ++ toString (w.times (tbase w + 3))

/-- The port list of src line 84. -/
def ports : List Nat := [22, 80, 443, 3306, 5432, 6379, 27017, 5000, 8080, 8443]

/-- `rule_params` for one port (src lines 89-98). -/
def mkSecurityRule (priority port : Nat) : SecurityRuleParams :=
  ⟨"Tcp", "*", "*", "Allow", "Inbound", priority, toString port, "*"⟩

/-- Embeds the NSG-rule loop (src lines 86-100): one print and one
security-rule create per port, priority stepping by 10. -/
def nsgRuleEvents (rg nsg : String) : List Nat → Nat → List Event
  | [], _ => []
  | port :: rest, priority =>
    Event.print ("Creating NSG rule AllowTCP" ++ toString port ++ " for port "
      ++ toString port ++ "...") ::
    Event.apiCreateSecurityRule rg nsg ("AllowTCP" ++ toString port)
      (mkSecurityRule priority port) ::
    nsgRuleEvents rg nsg rest (priority + 10)

/-- `timeout = 300` (src line 176). -/
def timeout : Nat := 300

/-- `interval = 10` (src line 177). -/
def interval : Nat := 10

/-- Embeds the polling `while` loop (src lines 179-183): while the IP is
falsy and `elapsed < timeout`, sleep `interval`, add `interval` to `elapsed`
and GET the public IP again.  Arguments: current `public_ip`, index of the
next unread poll result, remaining fuel and `elapsed`.  The fuel is only a
structural-recursion device: the run enters the loop with
`fuel = timeout / interval` and `elapsed = 0`, and since every iteration adds
`interval` to `elapsed`, the fuel reaches 0 exactly when `elapsed` reaches
`timeout`, where the guard is false anyway — so the function agrees with the
unbounded loop at that entry point.  Returns the events, the final
`public_ip` and the final `elapsed`. -/
def pollLoop (w : World) (rg pn : String) :
    Option String → Nat → Nat → Nat → List Event × Option String × Nat
  | ip, _, 0, elapsed => ([], ip, elapsed)
  | ip, idx, fuel + 1, elapsed =>
    if truthyO ip = false ∧ elapsed < timeout then
      let r := pollLoop w rg pn (w.ipAtPoll idx) (idx + 1) fuel (elapsed + interval)
      (Event.sleep interval :: Event.apiGetPublicIP rg pn :: r.1, r.2)
    else
      ([], ip, elapsed)

/-- The events of `n` poll iterations: each iteration sleeps `interval`
seconds then GETs the public IP. -/
def pollEvs (rg pn : String) : Nat → List Event
  | 0 => []
  | n + 1 => Event.sleep interval :: Event.apiGetPublicIP rg pn :: pollEvs rg pn n

/-- The value `public_ip` holds after `k` loop iterations, starting from `ip`
with poll readings taken from index `idx` on. -/
def pollVal (w : World) (ip : Option String) (idx : Nat) : Nat → Option String
  | 0 => ip
  | k + 1 => w.ipAtPoll (idx + k)

/-- The poll loop as the run enters it: `public_ip` from the initial GET
(reading 0), in-loop readings from index 1, `elapsed = 0`. -/
def pollResult (w : World) : List Event × Option String × Nat :=
  pollLoop w (rg_nameOf w) (pubip_nameOf w) (w.ipAtPoll 0) 1 (timeout / interval) 0

/-- The final value of `public_ip` when the loop ends. -/
def pollFinal (w : World) : Option String := (pollResult w).2.1

/-- The separator line printed around the summary (src lines 190-199): a row
of 64 equals signs. -/
def sep : String := String.mk (List.replicate 64 (Char.ofNat 61))

/-- The path of the details file (src line 215). -/
def infoPath : String := "/tmp/azure-instance-info.txt"

/-- The `info` string written to the details file (src lines 201-214). -/
def infoText (rg vm location ip sshCmd : String) : String :=
  "\nAzure ARM-based VM details:\n\nResource Group: " ++ rg
    ++ "\nVM Name:        " ++ vm
    ++ "\nLocation:       " ++ location
    ++ "\nPublic IP:      " ++ ip
    ++ "\n\nSSH command:\n  " ++ sshCmd
    ++ "\n\nTo delete all resources, run:\n  az group delete --name " ++ rg
    ++ " --yes --no-wait\n"

/-- The summary block (src lines 189-218): stdout prints, the details-file
write and the closing print. -/
def summaryEvents (w : World) (ip : String) : List Event :=
  let ssh_cmd := "ssh azureuser@" ++ ip
  [Event.print sep,
   Event.print "Azure ARM-based VM details:",
   Event.print ("  Resource Group: " ++ rg_nameOf w),
   Event.print ("  VM Name:        " ++ vm_nameOf w),
   Event.print ("  Location:       " ++ locationOf w),
   Event.print ("  Public IP:      " ++ ip),
   Event.print sep,
   Event.print "To SSH into your VM, run:",
   Event.print ("  " ++ ssh_cmd),
   Event.print sep,
   Event.writeFile infoPath (infoText (rg_nameOf w) (vm_nameOf w) (locationOf w) ip ssh_cmd),
   Event.print "Instance info saved to /tmp/azure-instance-info.txt."]

/-- Embeds src lines 171-218: the initial public-IP GET, the polling loop,
then either the timeout error and exit (lines 185-187) or the summary. -/
def finishPhase (w : World) : List Event :=
  Event.apiGetPublicIP (rg_nameOf w) (pubip_nameOf w) ::
  (pollResult w).1 ++
  (if truthyO (pollFinal w) = false then
     [Event.printStderr "Error: Timed out waiting for public IP assignment.",
      Event.exit 1]
   else
     summaryEvents w ((pollFinal w).getD ""))

/-- Embeds src lines 61-128: vnet and subnet creation, NSG creation, the NSG
rule loop, public IP, NIC, and the `Creating virtual machine` print (line
128), which the source emits before the SSH-key check. -/
def networkEvents (w : World) : List Event :=
  [Event.print ("Creating virtual network " ++ vnet_nameOf w ++ " and subnet ArmSubnet..."),
   Event.apiCreateVirtualNetwork (rg_nameOf w) (vnet_nameOf w) (locationOf w) "10.0.0.0/16",
   Event.apiCreateSubnet (rg_nameOf w) (vnet_nameOf w) "ArmSubnet" "10.0.0.0/24",
   Event.print ("Creating network security group " ++ nsg_nameOf w ++ "..."),
   Event.apiCreateNetworkSecurityGroup (rg_nameOf w) (nsg_nameOf w) (locationOf w)]
  ++ nsgRuleEvents (rg_nameOf w) (nsg_nameOf w) ports 1000
  ++ [Event.print ("Creating public IP " ++ pubip_nameOf w ++ "..."),
      Event.apiCreatePublicIP (rg_nameOf w) (pubip_nameOf w) (locationOf w),
      Event.print ("Creating network interface " ++ nic_nameOf w ++ "..."),
      Event.apiCreateNetworkInterface (rg_nameOf w) (nic_nameOf w) (locationOf w)
        w.subnetId w.pubipId w.nsgId,
      Event.print ("Creating virtual machine " ++ vm_nameOf w ++ "...")]

/-- Embeds src lines 45-218, everything after the credentials are in hand:
resource-group step, network provisioning, SSH-key check (lines 130-136,
exiting before the VM create when the key file is missing), VM creation and
the finish phase. -/
def mainAfterCreds (w : World) : List Event :=
  (rgPhase w).1 ++ networkEvents w ++
  (if w.sshKeyExists = false then
     [Event.printStderr ("Error: SSH public key not found at " ++ w.home ++ "/.ssh/id_rsa.pub"),
      Event.exit 1]
   else
     Event.apiCreateVirtualMachine (rg_nameOf w) (vm_nameOf w) (locationOf w)
       w.nicId (w.sshKeyContent.trim) :: finishPhase w)

/-- Embeds the whole script: the credential prologue (which may exit), the
location print (src line 31) and the rest.  Client construction (lines 34-43)
performs no observable action. -/
def run (w : World) : List Event :=
  match (readCreds w.env).2 with
  | none => (readCreds w.env).1
  | some _ =>
    (readCreds w.env).1 ++
    Event.print ("Using Azure location: " ++ locationOf w) :: mainAfterCreds w

/-- Classification of the workflow steps of claim C1. -/
inductive OpKind where
  | rgList | rgCreate | vnetCreate | subnetCreate | nsgCreate | ruleCreate
  | pubipCreate | nicCreate | vmCreate | ipGet | fileWrite
  deriving DecidableEq

/-- The workflow step an event performs, if any (prints, sleeps and exits
perform none). -/
def opKind : Event → Option OpKind
  | Event.apiListResourceGroups => some OpKind.rgList
  | Event.apiCreateResourceGroup _ _ => some OpKind.rgCreate
  | Event.apiCreateVirtualNetwork _ _ _ _ => some OpKind.vnetCreate
  | Event.apiCreateSubnet _ _ _ _ => some OpKind.subnetCreate
  | Event.apiCreateNetworkSecurityGroup _ _ _ => some OpKind.nsgCreate
  | Event.apiCreateSecurityRule _ _ _ _ => some OpKind.ruleCreate
  | Event.apiCreatePublicIP _ _ _ => some OpKind.pubipCreate
  | Event.apiCreateNetworkInterface _ _ _ _ _ _ => some OpKind.nicCreate
  | Event.apiCreateVirtualMachine _ _ _ _ _ => some OpKind.vmCreate
  | Event.apiGetPublicIP _ _ => some OpKind.ipGet
  | Event.writeFile _ _ => some OpKind.fileWrite
  | _ => none

/-- The sequence of workflow steps of a trace. -/
def opTrace (evs : List Event) : List OpKind := evs.filterMap opKind

/-- The (kind, resource name) of a resource-creation API call. -/
def createKey : Event → Option (OpKind × String)
  | Event.apiCreateResourceGroup n _ => some (OpKind.rgCreate, n)
  | Event.apiCreateVirtualNetwork _ n _ _ => some (OpKind.vnetCreate, n)
  | Event.apiCreateSubnet _ _ n _ => some (OpKind.subnetCreate, n)
  | Event.apiCreateNetworkSecurityGroup _ n _ => some (OpKind.nsgCreate, n)
  | Event.apiCreateSecurityRule _ _ n _ => some (OpKind.ruleCreate, n)
  | Event.apiCreatePublicIP _ n _ => some (OpKind.pubipCreate, n)
  | Event.apiCreateNetworkInterface _ n _ _ _ _ => some (OpKind.nicCreate, n)
  | Event.apiCreateVirtualMachine _ n _ _ _ => some (OpKind.vmCreate, n)
  | _ => none

/-- The resource-creation calls of a trace, as (kind, resource name) pairs. -/
def createOps (evs : List Event) : List (OpKind × String) := evs.filterMap createKey

/-- Whether an event is a `sys.exit`. -/
def isExit : Event → Bool
  | Event.exit _ => true
  | _ => false

/-- A trace with no `sys.exit`: the run completed successfully. -/
def exitFree (evs : List Event) : Bool := evs.all (fun e => !isExit e)

/-- Whether an event is a provider-API call. -/
def isProviderApi (e : Event) : Bool :=
  match e with
  | Event.print _ => false
  | Event.printStderr _ => false
  | Event.exit _ => false
  | Event.sleep _ => false
  | Event.writeFile _ _ => false
  | _ => true

/-- The provider-API calls of a trace. -/
def apiCalls (evs : List Event) : List Event := evs.filter isProviderApi

/-- The (rule name, parameters) of a security-rule creation call. -/
def ruleCall : Event → Option (String × SecurityRuleParams)
  | Event.apiCreateSecurityRule _ _ n p => some (n, p)
  | _ => none

/-- The security-rule creations of a trace. -/
def ruleCalls (evs : List Event) : List (String × SecurityRuleParams) :=
  evs.filterMap ruleCall

/-- Python truthiness of `os.environ.get(n)`. -/
def envTruthy (env : EnvMap) (n : String) : Bool := truthyO (List.lookup n env)

/-- One of the five required environment variables of src lines 20-28 is
absent or empty. -/
def missingRequiredVar (env : EnvMap) : Bool :=
  !envTruthy env "INSTRUQT_AZURE_SUBSCRIPTIONS" ||
  !envTruthy env (spnIdVar ((List.lookup "INSTRUQT_AZURE_SUBSCRIPTIONS" env).getD "")) ||
  !envTruthy env (spnPasswordVar ((List.lookup "INSTRUQT_AZURE_SUBSCRIPTIONS" env).getD "")) ||
  !envTruthy env (tenantIdVar ((List.lookup "INSTRUQT_AZURE_SUBSCRIPTIONS" env).getD "")) ||
  !envTruthy env "AZURE_SUBSCRIPTION_ID"

/-- The credential prologue completes without exiting. -/
def credsOk (env : EnvMap) : Bool := ((readCreds env).2).isSome

/-- String containment: `sub` occurs contiguously in `s`. -/
def containsStr (s sub : String) : Prop := ∃ a b, s = a ++ (sub ++ b)

/-- The ten (rule name, parameters) pairs the NSG loop creates, in loop
order: one Allow/Inbound/Tcp rule per port of `ports`, priorities stepping
from 1000 by 10. -/
def expectedRules : List (String × SecurityRuleParams) :=
  [("AllowTCP22", ⟨"Tcp", "*", "*", "Allow", "Inbound", 1000, "22", "*"⟩),
   ("AllowTCP80", ⟨"Tcp", "*", "*", "Allow", "Inbound", 1010, "80", "*"⟩),
   ("AllowTCP443", ⟨"Tcp", "*", "*", "Allow", "Inbound", 1020, "443", "*"⟩),
   ("AllowTCP3306", ⟨"Tcp", "*", "*", "Allow", "Inbound", 1030, "3306", "*"⟩),
   ("AllowTCP5432", ⟨"Tcp", "*", "*", "Allow", "Inbound", 1040, "5432", "*"⟩),
   ("AllowTCP6379", ⟨"Tcp", "*", "*", "Allow", "Inbound", 1050, "6379", "*"⟩),
   ("AllowTCP27017", ⟨"Tcp", "*", "*", "Allow", "Inbound", 1060, "27017", "*"⟩),
   ("AllowTCP5000", ⟨"Tcp", "*", "*", "Allow", "Inbound", 1070, "5000", "*"⟩),
   ("AllowTCP8080", ⟨"Tcp", "*", "*", "Allow", "Inbound", 1080, "8080", "*"⟩),
   ("AllowTCP8443", ⟨"Tcp", "*", "*", "Allow", "Inbound", 1090, "8443", "*"⟩)]

/-- A complete environment for the concrete worlds below. -/
def envFull : EnvMap :=
  [("INSTRUQT_AZURE_SUBSCRIPTIONS", "S1"),
   ("INSTRUQT_AZURE_SUBSCRIPTION_S1_SPN_ID", "spn"),
   ("INSTRUQT_AZURE_SUBSCRIPTION_S1_SPN_PASSWORD", "pw"),
   ("INSTRUQT_AZURE_SUBSCRIPTION_S1_TENANT_ID", "tn"),
   ("AZURE_SUBSCRIPTION_ID", "sub"),
   ("AZURE_RESOURCE_GROUP", "rg1")]

/-- A world whose run succeeds: `AZURE_RESOURCE_GROUP` is set, the SSH key
exists and the public IP is assigned at the first GET. -/
def wBase : World :=
  ⟨envFull, [], fun _ => 1700000000, "snid", "ipid", "nsgid", "nicid",
   true, "ssh-rsa AAA\n", "/root", fun _ => some "1.2.3.4"⟩

/-- A world where the public IP is never assigned: the poll loop times out. -/
def wNoIp : World :=
  ⟨envFull, [], fun _ => 1700000000, "snid", "ipid", "nsgid", "nicid",
   true, "ssh-rsa AAA\n", "/root", fun _ => none⟩

/-- A world where `~/.ssh/id_rsa.pub` does not exist. -/
def wNoSsh : World :=
  ⟨envFull, [], fun _ => 1700000000, "snid", "ipid", "nsgid", "nicid",
   false, "", "/root", fun _ => some "1.2.3.4"⟩

/-- A world with no `AZURE_RESOURCE_GROUP` and no existing resource group:
the run creates `ArmResourceGroup-<time>` itself. -/
def wAuto : World :=
  ⟨[("INSTRUQT_AZURE_SUBSCRIPTIONS", "S1"),
    ("INSTRUQT_AZURE_SUBSCRIPTION_S1_SPN_ID", "spn"),
    ("INSTRUQT_AZURE_SUBSCRIPTION_S1_SPN_PASSWORD", "pw"),
    ("INSTRUQT_AZURE_SUBSCRIPTION_S1_TENANT_ID", "tn"),
    ("AZURE_SUBSCRIPTION_ID", "sub")],
   [], fun _ => 42, "snid", "ipid", "nsgid", "nicid",
   true, "ssh-rsa AAA\n", "/root", fun _ => some "1.2.3.4"⟩

/-- A world with an empty environment: the very first required variable is
absent. -/
def wEmpty : World :=
  ⟨[], [], fun _ => 0, "", "", "", "", true, "", "/root", fun _ => none⟩

end AzureVM

namespace AzureVM

/-- Associativity of string concatenation, via the underlying character
lists. -/
theorem strAppend_assoc (a b c : String) : a ++ b ++ c = a ++ (b ++ c) := by
  rcases a with ⟨la⟩
  rcases b with ⟨lb⟩
  rcases c with ⟨lc⟩
  show String.mk (la ++ lb ++ lc) = String.mk (la ++ (lb ++ lc))
  rw [List.append_assoc]

/-- `os.environ.get(n, None)` is the plain lookup. -/
theorem lookup_default_none (env : EnvMap) (n : String) :
    (match List.lookup n env with
     | some v => some v
     | none => (none : Option String)) = List.lookup n env := by
  cases List.lookup n env <;> rfl

/-- A required variable with a falsy value makes `get_env_variable` print the
error and exit. -/
theorem get_env_fail (env : EnvMap) (n : String) (h : envTruthy env n = false) :
    get_env_variable env n true none =
      ([Event.printStderr (envErrMsg n), Event.exit 1], none) := by
  unfold envTruthy at h
  simp [get_env_variable, lookup_default_none, h]

/-- A required variable with a truthy value makes `get_env_variable` return
it silently. -/
theorem get_env_ok (env : EnvMap) (n : String) (h : envTruthy env n = true) :
    get_env_variable env n true none = ([], some (List.lookup n env)) := by
  unfold envTruthy at h
  simp [get_env_variable, lookup_default_none, h]

/-- When a required variable is missing, the credential prologue is exactly
one stderr print naming some variable, followed by `sys.exit(1)`. -/
theorem readCreds_fail (env : EnvMap) (h : missingRequiredVar env = true) :
    ∃ v, readCreds env = ([Event.printStderr (envErrMsg v), Event.exit 1], none) := by
  unfold missingRequiredVar at h
  rcases (Bool.eq_false_or_eq_true (envTruthy env "INSTRUQT_AZURE_SUBSCRIPTIONS")).symm with h1 | h1
  · exact ⟨"INSTRUQT_AZURE_SUBSCRIPTIONS", by simp [readCreds, get_env_fail env _ h1]⟩
  rw [h1] at h
  simp only [Bool.not_true, Bool.false_or] at h
  rcases (Bool.eq_false_or_eq_true
      (envTruthy env (spnIdVar ((List.lookup "INSTRUQT_AZURE_SUBSCRIPTIONS" env).getD "")))).symm with h2 | h2
  · exact ⟨spnIdVar ((List.lookup "INSTRUQT_AZURE_SUBSCRIPTIONS" env).getD ""),
      by simp [readCreds, get_env_ok env _ h1, get_env_fail env _ h2]⟩
  rw [h2] at h
  simp only [Bool.not_true, Bool.false_or] at h
  rcases (Bool.eq_false_or_eq_true
      (envTruthy env (spnPasswordVar ((List.lookup "INSTRUQT_AZURE_SUBSCRIPTIONS" env).getD "")))).symm with h3 | h3
  · exact ⟨spnPasswordVar ((List.lookup "INSTRUQT_AZURE_SUBSCRIPTIONS" env).getD ""),
      by simp [readCreds, get_env_ok env _ h1, get_env_ok env _ h2, get_env_fail env _ h3]⟩
  rw [h3] at h
  simp only [Bool.not_true, Bool.false_or] at h
  rcases (Bool.eq_false_or_eq_true
      (envTruthy env (tenantIdVar ((List.lookup "INSTRUQT_AZURE_SUBSCRIPTIONS" env).getD "")))).symm with h4 | h4
  · exact ⟨tenantIdVar ((List.lookup "INSTRUQT_AZURE_SUBSCRIPTIONS" env).getD ""),
      by simp [readCreds, get_env_ok env _ h1, get_env_ok env _ h2,
        get_env_ok env _ h3, get_env_fail env _ h4]⟩
  rw [h4] at h
  simp only [Bool.not_true, Bool.false_or] at h
  have h5 : envTruthy env "AZURE_SUBSCRIPTION_ID" = false := by
    simpa using h
  exact ⟨"AZURE_SUBSCRIPTION_ID",
    by simp [readCreds, get_env_ok env _ h1, get_env_ok env _ h2,
      get_env_ok env _ h3, get_env_ok env _ h4, get_env_fail env _ h5]⟩

/-- When every required variable is truthy, the credential prologue emits no
event and returns credentials. -/
theorem readCreds_ok (env : EnvMap) (h : missingRequiredVar env = false) :
    ∃ c, readCreds env = ([], some c) := by
  unfold missingRequiredVar at h
  simp only [Bool.or_eq_false_iff, Bool.not_eq_false'] at h
  obtain ⟨⟨⟨⟨h1, h2⟩, h3⟩, h4⟩, h5⟩ := h
  exact ⟨⟨(List.lookup "INSTRUQT_AZURE_SUBSCRIPTIONS" env).getD "",
      (List.lookup (spnIdVar ((List.lookup "INSTRUQT_AZURE_SUBSCRIPTIONS" env).getD "")) env).getD "",
      (List.lookup (spnPasswordVar ((List.lookup "INSTRUQT_AZURE_SUBSCRIPTIONS" env).getD "")) env).getD "",
      (List.lookup (tenantIdVar ((List.lookup "INSTRUQT_AZURE_SUBSCRIPTIONS" env).getD "")) env).getD "",
      (List.lookup "AZURE_SUBSCRIPTION_ID" env).getD ""⟩,
    by simp [readCreds, get_env_ok env _ h1, get_env_ok env _ h2,
      get_env_ok env _ h3, get_env_ok env _ h4, get_env_ok env _ h5]⟩

/-- `credsOk` means the prologue returned silently. -/
theorem credsOk_shape (env : EnvMap) (h : credsOk env = true) :
    ∃ c, readCreds env = ([], some c) := by
  rcases (Bool.eq_false_or_eq_true (missingRequiredVar env)).symm with hm | hm
  · exact readCreds_ok env hm
  · obtain ⟨v, hv⟩ := readCreds_fail env hm
    rw [credsOk, hv] at h
    simp at h

/-- With credentials in hand, the run is the location print followed by the
main phase. -/
theorem run_credsOk (w : World) (h : credsOk w.env = true) :
    run w = Event.print ("Using Azure location: " ++ locationOf w) :: mainAfterCreds w := by
  obtain ⟨c, hc⟩ := credsOk_shape w.env h
  simp [run, hc]

/-- With a required variable missing, the run is exactly the stderr print and
the exit. -/
theorem run_credsFail (w : World) (h : missingRequiredVar w.env = true) :
    ∃ v, run w = [Event.printStderr (envErrMsg v), Event.exit 1] := by
  obtain ⟨v, hv⟩ := readCreds_fail w.env h
  exact ⟨v, by simp [run, hv]⟩

end AzureVM

namespace AzureVM

/-- The resource-group step emits one of exactly three event shapes:
configured group (print only), first existing group (list + print), or new
group (list + print + create). -/
theorem rgPhase_shape (w : World) :
    (rgPhase w).1 = [Event.print ("Using resource group from AZURE_RESOURCE_GROUP: " ++ rg_nameOf w)]
  ∨ (rgPhase w).1 = [Event.apiListResourceGroups,
      Event.print ("Found existing resource group: " ++ rg_nameOf w)]
  ∨ (rgPhase w).1 = [Event.apiListResourceGroups,
      Event.print ("No existing resource groups found; creating new one: " ++ rg_nameOf w),
      Event.apiCreateResourceGroup (rg_nameOf w) (locationOf w)] := by
  rcases hl : List.lookup "AZURE_RESOURCE_GROUP" w.env with _ | v
  · rcases hr : w.existingRGs with _ | ⟨a, l⟩
    · right; right; simp [rg_nameOf, rgPhase, rgAuto, hl, hr]
    · right; left; simp [rg_nameOf, rgPhase, rgAuto, hl, hr]
  · rcases (Bool.eq_false_or_eq_true (v == "")).symm with hv | hv
    · left; simp [rg_nameOf, rgPhase, hl, hv]
    · rcases hr : w.existingRGs with _ | ⟨a, l⟩
      · right; right; simp [rg_nameOf, rgPhase, rgAuto, hl, hr, hv]
      · right; left; simp [rg_nameOf, rgPhase, rgAuto, hl, hr, hv]

/-- The resource-group step issues a create call exactly when
`AZURE_RESOURCE_GROUP` is falsy and no resource group exists. -/
theorem rgPhase_createOps (w : World) :
    createOps (rgPhase w).1 =
      (if envTruthy w.env "AZURE_RESOURCE_GROUP" = false ∧ w.existingRGs = []
       then [(OpKind.rgCreate, rg_nameOf w)] else []) := by
  rcases hl : List.lookup "AZURE_RESOURCE_GROUP" w.env with _ | v
  · rcases hr : w.existingRGs with _ | ⟨a, l⟩
    · simp [rg_nameOf, rgPhase, rgAuto, hl, hr, envTruthy, truthyO, createOps, createKey]
    · simp [rg_nameOf, rgPhase, rgAuto, hl, hr, envTruthy, truthyO, createOps, createKey]
  · rcases (Bool.eq_false_or_eq_true (v == "")).symm with hv | hv
    · have hvt : envTruthy w.env "AZURE_RESOURCE_GROUP" = true := by
        simp [envTruthy, truthyO, hl, hv]
      simp [rg_nameOf, rgPhase, hl, hv, hvt, createOps, createKey]
    · have hvt : envTruthy w.env "AZURE_RESOURCE_GROUP" = false := by
        simp [envTruthy, truthyO, hl, hv]
      rcases hr : w.existingRGs with _ | ⟨a, l⟩
      · simp [rg_nameOf, rgPhase, rgAuto, hl, hr, hv, hvt, createOps, createKey]
      · simp [rg_nameOf, rgPhase, rgAuto, hl, hr, hv, hvt, createOps, createKey]

/-- The resource-group step never exits. -/
theorem rgPhase_exitFree (w : World) : exitFree (rgPhase w).1 = true := by
  rcases rgPhase_shape w with h | h | h <;> simp [h, exitFree, isExit]

/-- The workflow steps of the network phase, in order: vnet, subnet, NSG,
the ten rules, public IP, NIC. -/
theorem networkEvents_opTrace (w : World) :
    opTrace (networkEvents w) =
      [OpKind.vnetCreate, OpKind.subnetCreate, OpKind.nsgCreate] ++
      List.replicate 10 OpKind.ruleCreate ++
      [OpKind.pubipCreate, OpKind.nicCreate] := by
  rfl

/-- The create calls of the network phase, with their resource names. -/
theorem networkEvents_createOps (w : World) :
    createOps (networkEvents w) =
      [(OpKind.vnetCreate, vnet_nameOf w), (OpKind.subnetCreate, "ArmSubnet"),
       (OpKind.nsgCreate, nsg_nameOf w)] ++
      (expectedRules.map (fun r => (OpKind.ruleCreate, r.1))) ++
      [(OpKind.pubipCreate, pubip_nameOf w), (OpKind.nicCreate, nic_nameOf w)] := by
  rfl

/-- The security-rule creations of the network phase are exactly the expected
ten. -/
theorem networkEvents_ruleCalls (w : World) :
    ruleCalls (networkEvents w) = expectedRules := by
  rfl

/-- The network phase never exits. -/
theorem networkEvents_exitFree (w : World) : exitFree (networkEvents w) = true := by
  rfl

/-- Shifting the start of `pollVal` by one poll reading. -/
theorem pollVal_shift (w : World) (ip : Option String) (idx : Nat) (k : Nat) :
    pollVal w (w.ipAtPoll idx) (idx + 1) k = pollVal w ip idx (k + 1) := by
  cases k with
  | zero => simp [pollVal]
  | succ j =>
    show w.ipAtPoll (idx + 1 + j) = w.ipAtPoll (idx + (j + 1))
    congr 1
    omega

/-- Full characterisation of the polling loop under the fuel invariant
`interval * fuel + elapsed = timeout`: it performs some `n ≤ fuel`
iterations, each a sleep followed by a GET; the final `public_ip` is the
`n`-th poll value; every earlier poll value was falsy; and the loop stopped
either because the IP became truthy or because `elapsed` reached the
timeout. -/
theorem pollLoop_spec (w : World) (rg pn : String) :
    ∀ (fuel : Nat) (ip : Option String) (idx elapsed : Nat),
      interval * fuel + elapsed = timeout →
      ∃ n, n ≤ fuel ∧
        pollLoop w rg pn ip idx fuel elapsed =
          (pollEvs rg pn n, pollVal w ip idx n, elapsed + interval * n) ∧
        (∀ k, k < n → truthyO (pollVal w ip idx k) = false) ∧
        (truthyO (pollVal w ip idx n) = true ∨ elapsed + interval * n = timeout) := by
  intro fuel
  induction fuel with
  | zero =>
    intro ip idx elapsed hinv
    refine ⟨0, Nat.le_refl 0, ?_, ?_, ?_⟩
    · simp [pollLoop, pollVal, pollEvs]
    · intro k hk; omega
    · right; omega
  | succ fuel ih =>
    intro ip idx elapsed hinv
    have hintv : interval = 10 := rfl
    have htime : timeout = 300 := rfl
    rcases (Bool.eq_false_or_eq_true (truthyO ip)).symm with hip | hip
    · have hel : elapsed < timeout := by
        rw [htime]
        rw [hintv, htime] at hinv
        omega
      obtain ⟨n, hn, heq, hmin, hend⟩ :=
        ih (w.ipAtPoll idx) (idx + 1) (elapsed + interval) (by
          rw [hintv, htime] at hinv ⊢
          omega)
      refine ⟨n + 1, by omega, ?_, ?_, ?_⟩
      · have hcond : truthyO ip = false ∧ elapsed < timeout := ⟨hip, hel⟩
        simp only [pollLoop, if_pos hcond, heq]
        refine Prod.ext ?_ (Prod.ext ?_ ?_)
        · simp [pollEvs]
        · simp [pollVal_shift w ip idx n]
        · simp only []
          rw [Nat.mul_succ]
          omega
      · intro k hk
        cases k with
        | zero => simpa [pollVal] using hip
        | succ j =>
          have hj := hmin j (by omega)
          rwa [pollVal_shift w ip idx j] at hj
      · rcases hend with hend | hend
        · left; rwa [pollVal_shift w ip idx n] at hend
        · right; rw [Nat.mul_succ]; omega
    · refine ⟨0, Nat.zero_le _, ?_, ?_, ?_⟩
      · have hcond : ¬(truthyO ip = false ∧ elapsed < timeout) := by
          simp [hip]
        simp [pollLoop, if_neg hcond, pollEvs, pollVal]
      · intro k hk; omega
      · left; simpa [pollVal] using hip

end AzureVM

namespace AzureVM

/-- The workflow steps of `n` poll iterations are `n` GETs. -/
theorem pollEvs_opTrace (rg pn : String) :
    ∀ n, opTrace (pollEvs rg pn n) = List.replicate n OpKind.ipGet := by
  intro n
  induction n with
  | zero => rfl
  | succ n ih =>
    simp [pollEvs, opTrace, opKind, List.filterMap_cons, List.replicate_succ] at ih ⊢
    exact ih

/-- Poll iterations contribute nothing to a filterMap that drops sleeps and
GETs. -/
theorem pollEvs_filterMap_nil {β : Type} (f : Event → Option β) (rg pn : String)
    (h1 : f (Event.sleep interval) = none) (h2 : f (Event.apiGetPublicIP rg pn) = none) :
    ∀ n, (pollEvs rg pn n).filterMap f = [] := by
  intro n
  induction n with
  | zero => rfl
  | succ n ih => simp [pollEvs, List.filterMap_cons, h1, h2, ih]

/-- Poll iterations never exit. -/
theorem pollEvs_exitFree (rg pn : String) : ∀ n, exitFree (pollEvs rg pn n) = true := by
  intro n
  induction n with
  | zero => rfl
  | succ n ih =>
    simp only [pollEvs, exitFree, List.all_cons] at ih ⊢
    simpa [isExit] using ih

/-- The poll loop at its actual entry point: at most 30 iterations, the trace
and final IP as given by `pollEvs`/`pollVal`, earlier polls falsy, and the
loop ends with a truthy IP or at the 300-second timeout. -/
theorem pollResult_shape (w : World) :
    ∃ n, n ≤ 30 ∧
      pollResult w = (pollEvs (rg_nameOf w) (pubip_nameOf w) n,
        pollVal w (w.ipAtPoll 0) 1 n, interval * n) ∧
      (∀ k, k < n → truthyO (pollVal w (w.ipAtPoll 0) 1 k) = false) ∧
      (truthyO (pollVal w (w.ipAtPoll 0) 1 n) = true ∨ interval * n = timeout) := by
  obtain ⟨n, hn, heq, hmin, hend⟩ :=
    pollLoop_spec w (rg_nameOf w) (pubip_nameOf w) (timeout / interval) (w.ipAtPoll 0) 1 0
      (by decide)
  have h30 : timeout / interval = 30 := by decide
  rw [h30] at hn
  refine ⟨n, hn, ?_, hmin, ?_⟩
  · rw [pollResult, heq]
    simp
  · rcases hend with hend | hend
    · exact Or.inl hend
    · right
      simpa using hend

/-- The finish phase is the initial GET, the poll iterations, then either the
timeout error and exit (IP still falsy) or the summary block (IP truthy). -/
theorem finishPhase_shape (w : World) :
    ∃ n, n ≤ 30 ∧
      ((truthyO (pollFinal w) = false ∧
        finishPhase w =
          Event.apiGetPublicIP (rg_nameOf w) (pubip_nameOf w) ::
          pollEvs (rg_nameOf w) (pubip_nameOf w) n ++
          [Event.printStderr "Error: Timed out waiting for public IP assignment.",
           Event.exit 1]) ∨
       (truthyO (pollFinal w) = true ∧
        finishPhase w =
          Event.apiGetPublicIP (rg_nameOf w) (pubip_nameOf w) ::
          pollEvs (rg_nameOf w) (pubip_nameOf w) n ++
          summaryEvents w ((pollFinal w).getD ""))) := by
  obtain ⟨n, hn, heq, hmin, hend⟩ := pollResult_shape w
  refine ⟨n, hn, ?_⟩
  rcases (Bool.eq_false_or_eq_true (truthyO (pollFinal w))).symm with hb | hb
  · exact Or.inl ⟨hb, by simp [finishPhase, heq, hb]⟩
  · exact Or.inr ⟨hb, by simp [finishPhase, heq, hb]⟩

/-- The workflow step of the summary block is the details-file write. -/
theorem summaryEvents_opTrace (w : World) (ip : String) :
    opTrace (summaryEvents w ip) = [OpKind.fileWrite] := by
  rfl

/-- The summary block never exits. -/
theorem summaryEvents_exitFree (w : World) (ip : String) :
    exitFree (summaryEvents w ip) = true := by
  rfl

/-- The main phase when the SSH key file is missing. -/
theorem mainAfterCreds_sshFail (w : World) (hs : w.sshKeyExists = false) :
    mainAfterCreds w = (rgPhase w).1 ++ networkEvents w ++
      [Event.printStderr ("Error: SSH public key not found at " ++ w.home ++ "/.ssh/id_rsa.pub"),
       Event.exit 1] := by
  simp [mainAfterCreds, hs]

/-- The main phase when the SSH key file exists. -/
theorem mainAfterCreds_ssh (w : World) (hs : w.sshKeyExists = true) :
    mainAfterCreds w = (rgPhase w).1 ++ networkEvents w ++
      (Event.apiCreateVirtualMachine (rg_nameOf w) (vm_nameOf w) (locationOf w)
        w.nicId (w.sshKeyContent.trim) :: finishPhase w) := by
  simp [mainAfterCreds, hs]

/-- A run with no exit event must have valid credentials, an SSH key and a
truthy final IP, and its trace has the full successful shape. -/
theorem run_success (w : World) (h : exitFree (run w) = true) :
    ∃ n, n ≤ 30 ∧ credsOk w.env = true ∧ w.sshKeyExists = true ∧
      truthyO (pollFinal w) = true ∧
      run w = Event.print ("Using Azure location: " ++ locationOf w) ::
        (rgPhase w).1 ++ networkEvents w ++
        (Event.apiCreateVirtualMachine (rg_nameOf w) (vm_nameOf w) (locationOf w)
          w.nicId (w.sshKeyContent.trim) ::
         Event.apiGetPublicIP (rg_nameOf w) (pubip_nameOf w) ::
         pollEvs (rg_nameOf w) (pubip_nameOf w) n ++
         summaryEvents w ((pollFinal w).getD "")) := by
  have hc : credsOk w.env = true := by
    rcases (Bool.eq_false_or_eq_true (credsOk w.env)).symm with hc | hc
    · have hm : missingRequiredVar w.env = true := by
        rcases (Bool.eq_false_or_eq_true (missingRequiredVar w.env)).symm with hm | hm
        · obtain ⟨c, hcc⟩ := readCreds_ok w.env hm
          rw [credsOk, hcc] at hc
          simp at hc
        · exact hm
      obtain ⟨v, hv⟩ := run_credsFail w hm
      rw [hv] at h
      simp [exitFree, List.all_cons, isExit] at h
    · exact hc
  have hrun := run_credsOk w hc
  have hs : w.sshKeyExists = true := by
    rcases (Bool.eq_false_or_eq_true w.sshKeyExists).symm with hs | hs
    · rw [hrun, mainAfterCreds_sshFail w hs] at h
      simp [exitFree, List.all_append, List.all_cons, isExit] at h
    · exact hs
  obtain ⟨n, hn, hshape⟩ := finishPhase_shape w
  rcases hshape with ⟨hb, hfin⟩ | ⟨hb, hfin⟩
  · rw [hrun, mainAfterCreds_ssh w hs, hfin] at h
    simp [exitFree, List.all_append, List.all_cons, isExit] at h
  · refine ⟨n, hn, hc, hs, hb, ?_⟩
    rw [hrun, mainAfterCreds_ssh w hs, hfin]
    simp [List.cons_append, List.append_assoc]

/-- Conversely, valid credentials, an existing SSH key and a truthy final IP
make the run exit-free. -/
theorem run_success_exitFree (w : World) (hc : credsOk w.env = true)
    (hs : w.sshKeyExists = true) (hp : truthyO (pollFinal w) = true) :
    exitFree (run w) = true := by
  obtain ⟨n, hn, hshape⟩ := finishPhase_shape w
  rcases hshape with ⟨hb, hfin⟩ | ⟨hb, hfin⟩
  · rw [hp] at hb
    cases hb
  · rw [run_credsOk w hc, mainAfterCreds_ssh w hs, hfin]
    have h1 := rgPhase_exitFree w
    have h2 := networkEvents_exitFree w
    have h3 := pollEvs_exitFree (rg_nameOf w) (pubip_nameOf w) n
    have h4 := summaryEvents_exitFree w ((pollFinal w).getD "")
    simp only [exitFree] at h1 h2 h3 h4 ⊢
    simp only [List.all_cons, List.all_append, h1, h2, h3, h4]
    simp [isExit]

/-- The full trace of a run that fails the SSH-key check. -/
theorem run_sshFail (w : World) (hc : credsOk w.env = true) (hs : w.sshKeyExists = false) :
    run w = Event.print ("Using Azure location: " ++ locationOf w) ::
      (rgPhase w).1 ++ networkEvents w ++
      [Event.printStderr ("Error: SSH public key not found at " ++ w.home ++ "/.ssh/id_rsa.pub"),
       Event.exit 1] := by
  rw [run_credsOk w hc, mainAfterCreds_sshFail w hs]
  simp [List.cons_append, List.append_assoc]

/-- The full trace of a run whose poll loop times out. -/
theorem run_pollFail (w : World) (hc : credsOk w.env = true) (hs : w.sshKeyExists = true)
    (hp : truthyO (pollFinal w) = false) :
    ∃ n, n ≤ 30 ∧
      run w = Event.print ("Using Azure location: " ++ locationOf w) ::
        (rgPhase w).1 ++ networkEvents w ++
        (Event.apiCreateVirtualMachine (rg_nameOf w) (vm_nameOf w) (locationOf w)
          w.nicId (w.sshKeyContent.trim) ::
         Event.apiGetPublicIP (rg_nameOf w) (pubip_nameOf w) ::
         pollEvs (rg_nameOf w) (pubip_nameOf w) n ++
         [Event.printStderr "Error: Timed out waiting for public IP assignment.",
          Event.exit 1]) := by
  obtain ⟨n, hn, hshape⟩ := finishPhase_shape w
  rcases hshape with ⟨hb, hfin⟩ | ⟨hb, hfin⟩
  · refine ⟨n, hn, ?_⟩
    rw [run_credsOk w hc, mainAfterCreds_ssh w hs, hfin]
    simp [List.cons_append, List.append_assoc]
  · rw [hp] at hb
    cases hb

end AzureVM

namespace AzureVM

/-- `opTrace` distributes over concatenation. -/
theorem opTrace_append (a b : List Event) : opTrace (a ++ b) = opTrace a ++ opTrace b := by
  simp [opTrace]

/-- A stdout print contributes no workflow step. -/
theorem opTrace_print_cons (s : String) (l : List Event) :
    opTrace (Event.print s :: l) = opTrace l := by
  rfl

/-- A VM creation contributes the `vmCreate` step. -/
theorem opTrace_vm_cons (a b c d e : String) (l : List Event) :
    opTrace (Event.apiCreateVirtualMachine a b c d e :: l) = OpKind.vmCreate :: opTrace l := by
  rfl

/-- A public-IP GET contributes the `ipGet` step. -/
theorem opTrace_get_cons (a b : String) (l : List Event) :
    opTrace (Event.apiGetPublicIP a b :: l) = OpKind.ipGet :: opTrace l := by
  rfl

/-- Each poll iteration is two events (a sleep and a GET). -/
theorem pollEvs_length (rg pn : String) : ∀ n, (pollEvs rg pn n).length = 2 * n := by
  intro n
  induction n with
  | zero => rfl
  | succ n ih =>
    simp only [pollEvs, List.length_cons, ih]
    omega

/-- A failing `credsOk` means some required variable is missing. -/
theorem credsFail_missing (env : EnvMap) (hc : credsOk env = false) :
    missingRequiredVar env = true := by
  rcases (Bool.eq_false_or_eq_true (missingRequiredVar env)).symm with hm | hm
  · obtain ⟨c, hcc⟩ := readCreds_ok env hm
    rw [credsOk, hcc] at hc
    simp at hc
  · exact hm

/-- With credentials in hand, the run is the location print, the
resource-group step, the network phase and one of three tails: the SSH-key
failure, the poll timeout failure, or the successful summary. -/
theorem run_split (w : World) (hc : credsOk w.env = true) :
    ∃ tail, run w = Event.print ("Using Azure location: " ++ locationOf w) ::
        (rgPhase w).1 ++ networkEvents w ++ tail ∧
      (tail = [Event.printStderr ("Error: SSH public key not found at " ++ w.home ++ "/.ssh/id_rsa.pub"),
               Event.exit 1] ∨
       ∃ n, n ≤ 30 ∧
         (tail = Event.apiCreateVirtualMachine (rg_nameOf w) (vm_nameOf w) (locationOf w)
             w.nicId (w.sshKeyContent.trim) ::
           Event.apiGetPublicIP (rg_nameOf w) (pubip_nameOf w) ::
           pollEvs (rg_nameOf w) (pubip_nameOf w) n ++
           [Event.printStderr "Error: Timed out waiting for public IP assignment.", Event.exit 1] ∨
          tail = Event.apiCreateVirtualMachine (rg_nameOf w) (vm_nameOf w) (locationOf w)
             w.nicId (w.sshKeyContent.trim) ::
           Event.apiGetPublicIP (rg_nameOf w) (pubip_nameOf w) ::
           pollEvs (rg_nameOf w) (pubip_nameOf w) n ++
           summaryEvents w ((pollFinal w).getD ""))) := by
  rcases (Bool.eq_false_or_eq_true w.sshKeyExists).symm with hs | hs
  · exact ⟨_, run_sshFail w hc hs, Or.inl rfl⟩
  · rcases (Bool.eq_false_or_eq_true (truthyO (pollFinal w))).symm with hp | hp
    · obtain ⟨n, hn, hrun⟩ := run_pollFail w hc hs hp
      exact ⟨_, hrun, Or.inr ⟨n, hn, Or.inl rfl⟩⟩
    · obtain ⟨n, hn, _, _, _, hrun⟩ := run_success w (run_success_exitFree w hc hs hp)
      exact ⟨_, hrun, Or.inr ⟨n, hn, Or.inr rfl⟩⟩

/-- The resource-group step's workflow trace, by configuration: create only
when no group is configured and none exists; list whenever none is
configured. -/
theorem rgPhase_opTrace_cond (w : World) :
    opTrace (rgPhase w).1 =
      (if envTruthy w.env "AZURE_RESOURCE_GROUP" = false ∧ w.existingRGs = []
       then [OpKind.rgList, OpKind.rgCreate]
       else if envTruthy w.env "AZURE_RESOURCE_GROUP" = false then [OpKind.rgList]
       else []) := by
  rcases hl : List.lookup "AZURE_RESOURCE_GROUP" w.env with _ | v
  · have hvt : envTruthy w.env "AZURE_RESOURCE_GROUP" = false := by
      simp [envTruthy, truthyO, hl]
    rcases hr : w.existingRGs with _ | ⟨a, l⟩
    · simp [rgPhase, rgAuto, hl, hr, hvt, opTrace, opKind]
    · simp [rgPhase, rgAuto, hl, hr, hvt, opTrace, opKind]
  · rcases (Bool.eq_false_or_eq_true (v == "")).symm with hv | hv
    · have hvt : envTruthy w.env "AZURE_RESOURCE_GROUP" = true := by
        simp [envTruthy, truthyO, hl, hv]
      simp [rgPhase, hl, hv, hvt, opTrace, opKind]
    · have hvt : envTruthy w.env "AZURE_RESOURCE_GROUP" = false := by
        simp [envTruthy, truthyO, hl, hv]
      rcases hr : w.existingRGs with _ | ⟨a, l⟩
      · simp [rgPhase, rgAuto, hl, hr, hv, hvt, opTrace, opKind]
      · simp [rgPhase, rgAuto, hl, hr, hv, hvt, opTrace, opKind]

/-- The resource-group step writes no file. -/
theorem rgPhase_no_writeFile (w : World) (p c : String) :
    Event.writeFile p c ∉ (rgPhase w).1 := by
  rcases rgPhase_shape w with h | h | h <;> rw [h] <;> simp

/-- The network phase writes no file. -/
theorem networkEvents_no_writeFile (w : World) (p c : String) :
    Event.writeFile p c ∉ networkEvents w := by
  simp [networkEvents, nsgRuleEvents, ports, List.mem_append, List.mem_cons]

/-- Poll iterations write no file. -/
theorem pollEvs_no_writeFile (rg pn p c : String) :
    ∀ n, Event.writeFile p c ∉ pollEvs rg pn n := by
  intro n
  induction n with
  | zero => simp [pollEvs]
  | succ n ih => simp [pollEvs, List.mem_cons, ih]

/-- The details file content contains the resource-group name. -/
theorem infoText_contains_rg (rg vm loc ip ssh : String) :
    containsStr (infoText rg vm loc ip ssh) rg :=
  ⟨"\nAzure ARM-based VM details:\n\nResource Group: ",
   "\nVM Name:        " ++ vm ++ "\nLocation:       " ++ loc
     ++ "\nPublic IP:      " ++ ip ++ "\n\nSSH command:\n  " ++ ssh
     ++ "\n\nTo delete all resources, run:\n  az group delete --name " ++ rg
     ++ " --yes --no-wait\n",
   by simp only [infoText, strAppend_assoc]⟩

/-- The details file content contains the VM name. -/
theorem infoText_contains_vm (rg vm loc ip ssh : String) :
    containsStr (infoText rg vm loc ip ssh) vm :=
  ⟨"\nAzure ARM-based VM details:\n\nResource Group: " ++ rg ++ "\nVM Name:        ",
   "\nLocation:       " ++ loc
     ++ "\nPublic IP:      " ++ ip ++ "\n\nSSH command:\n  " ++ ssh
     ++ "\n\nTo delete all resources, run:\n  az group delete --name " ++ rg
     ++ " --yes --no-wait\n",
   by simp only [infoText, strAppend_assoc]⟩

/-- The details file content contains the location. -/
theorem infoText_contains_loc (rg vm loc ip ssh : String) :
    containsStr (infoText rg vm loc ip ssh) loc :=
  ⟨"\nAzure ARM-based VM details:\n\nResource Group: " ++ rg ++ "\nVM Name:        "
     ++ vm ++ "\nLocation:       ",
   "\nPublic IP:      " ++ ip ++ "\n\nSSH command:\n  " ++ ssh
     ++ "\n\nTo delete all resources, run:\n  az group delete --name " ++ rg
     ++ " --yes --no-wait\n",
   by simp only [infoText, strAppend_assoc]⟩

/-- The details file content contains the public IP. -/
theorem infoText_contains_ip (rg vm loc ip ssh : String) :
    containsStr (infoText rg vm loc ip ssh) ip :=
  ⟨"\nAzure ARM-based VM details:\n\nResource Group: " ++ rg ++ "\nVM Name:        "
     ++ vm ++ "\nLocation:       " ++ loc ++ "\nPublic IP:      ",
   "\n\nSSH command:\n  " ++ ssh
     ++ "\n\nTo delete all resources, run:\n  az group delete --name " ++ rg
     ++ " --yes --no-wait\n",
   by simp only [infoText, strAppend_assoc]⟩

/-- The details file content contains the SSH command. -/
theorem infoText_contains_ssh (rg vm loc ip ssh : String) :
    containsStr (infoText rg vm loc ip ssh) ssh :=
  ⟨"\nAzure ARM-based VM details:\n\nResource Group: " ++ rg ++ "\nVM Name:        "
     ++ vm ++ "\nLocation:       " ++ loc ++ "\nPublic IP:      " ++ ip
     ++ "\n\nSSH command:\n  ",
   "\n\nTo delete all resources, run:\n  az group delete --name " ++ rg
     ++ " --yes --no-wait\n",
   by simp only [infoText, strAppend_assoc]⟩

end AzureVM

namespace AzureVM

/-- C1: in every run that completes successfully (no `sys.exit`), the
workflow steps occur in the fixed linear order: the resource-group step (one
of its three shapes), then vnet and subnet creation, then the NSG and its ten
rules, then the public IP, then the NIC, then the VM, then at least one
public-IP GET, then the details-file write — in particular subnet, NSG and
public IP before the NIC, and the NIC before the VM. -/
theorem claim_C1_api_order (w : World) (h : exitFree (run w) = true) :
    ∃ pre n,
      (pre = ([] : List OpKind) ∨ pre = [OpKind.rgList] ∨
        pre = [OpKind.rgList, OpKind.rgCreate]) ∧
      1 ≤ n ∧
      opTrace (run w) =
        pre ++ [OpKind.vnetCreate, OpKind.subnetCreate, OpKind.nsgCreate]
          ++ List.replicate 10 OpKind.ruleCreate
          ++ [OpKind.pubipCreate, OpKind.nicCreate, OpKind.vmCreate]
          ++ List.replicate n OpKind.ipGet ++ [OpKind.fileWrite] := by
  obtain ⟨n, hn, hc, hs, hb, hrun⟩ := run_success w h
  refine ⟨opTrace (rgPhase w).1, n + 1, ?_, by omega, ?_⟩
  · rcases rgPhase_shape w with h1 | h1 | h1
    · left; rw [h1]; rfl
    · right; left; rw [h1]; rfl
    · right; right; rw [h1]; rfl
  · rw [hrun]
    simp only [opTrace_append, opTrace_print_cons, opTrace_vm_cons, opTrace_get_cons,
      networkEvents_opTrace, pollEvs_opTrace, summaryEvents_opTrace]
    simp [List.append_assoc, List.cons_append, List.replicate_succ]

/-- Witness for C1 at the concrete world `wBase`. -/
theorem claim_C1_api_order_witness :
    ∃ pre n,
      (pre = ([] : List OpKind) ∨ pre = [OpKind.rgList] ∨
        pre = [OpKind.rgList, OpKind.rgCreate]) ∧
      1 ≤ n ∧
      opTrace (run wBase) =
        pre ++ [OpKind.vnetCreate, OpKind.subnetCreate, OpKind.nsgCreate]
          ++ List.replicate 10 OpKind.ruleCreate
          ++ [OpKind.pubipCreate, OpKind.nicCreate, OpKind.vmCreate]
          ++ List.replicate n OpKind.ipGet ++ [OpKind.fileWrite] :=
  claim_C1_api_order wBase (by rfl)

/-- C2 fails on the code: at `wBase` (where `AZURE_RESOURCE_GROUP` is set)
the run completes successfully, issues no resource-group create at all, and
its first provider-API step is the virtual-network creation. -/
theorem claim_C2_counterexample :
    exitFree (run wBase) = true ∧
    (opTrace (run wBase)).count OpKind.rgCreate = 0 ∧
    (opTrace (run wBase)).head? = some OpKind.vnetCreate := by
  refine ⟨rfl, ?_, rfl⟩
  rfl

/-- C2 amended: a run with valid credentials issues a resource-group create
call iff `AZURE_RESOURCE_GROUP` is unset or empty and listing resource groups
returns none; in that case the first two provider steps are the list and the
create, and otherwise no resource-group create is ever issued. -/
theorem claim_C2_amended (w : World) (hc : credsOk w.env = true) :
    ((envTruthy w.env "AZURE_RESOURCE_GROUP" = false ∧ w.existingRGs = []) →
      (opTrace (run w)).count OpKind.rgCreate = 1 ∧
      (opTrace (run w)).take 2 = [OpKind.rgList, OpKind.rgCreate]) ∧
    (¬(envTruthy w.env "AZURE_RESOURCE_GROUP" = false ∧ w.existingRGs = []) →
      (opTrace (run w)).count OpKind.rgCreate = 0) := by
  obtain ⟨tail, hrun, htail⟩ := run_split w hc
  have h2 : (opTrace (networkEvents w)).count OpKind.rgCreate = 0 := by
    rw [networkEvents_opTrace]
    rfl
  have h3 : (opTrace tail).count OpKind.rgCreate = 0 := by
    rcases htail with ht | ⟨n, hn, ht | ht⟩ <;> rw [ht]
    · rfl
    · simp only [opTrace_vm_cons, opTrace_get_cons, opTrace_append, pollEvs_opTrace]
      simp [List.count_cons, List.count_append, List.count_replicate, opTrace, opKind]
    · simp only [opTrace_vm_cons, opTrace_get_cons, opTrace_append, pollEvs_opTrace,
        summaryEvents_opTrace]
      simp [List.count_cons, List.count_append, List.count_replicate, opTrace, opKind]
  have hcount : (opTrace (run w)).count OpKind.rgCreate =
      (opTrace (rgPhase w).1).count OpKind.rgCreate := by
    rw [hrun]
    simp only [opTrace_append, opTrace_print_cons, List.count_append, h2, h3]
    omega
  constructor
  · intro hcond
    constructor
    · rw [hcount, rgPhase_opTrace_cond w, if_pos hcond]
      rfl
    · rw [hrun]
      rw [show opTrace (Event.print ("Using Azure location: " ++ locationOf w) ::
          (rgPhase w).1 ++ networkEvents w ++ tail) =
          opTrace (rgPhase w).1 ++ opTrace (networkEvents w) ++ opTrace tail by
        simp only [opTrace_append, opTrace_print_cons]]
      rw [rgPhase_opTrace_cond w, if_pos hcond]
      simp [List.take, List.cons_append, List.append_assoc]
  · intro hcond
    rw [hcount, rgPhase_opTrace_cond w, if_neg hcond]
    rcases (em (envTruthy w.env "AZURE_RESOURCE_GROUP" = false)) with he | he
    · rw [if_pos he]; rfl
    · rw [if_neg he]; rfl

/-- Witness for C2 amended: at `wAuto` the group is created (list then
create first), at `wBase` it never is. -/
theorem claim_C2_amended_witness :
    ((opTrace (run wAuto)).count OpKind.rgCreate = 1 ∧
     (opTrace (run wAuto)).take 2 = [OpKind.rgList, OpKind.rgCreate]) ∧
    (opTrace (run wBase)).count OpKind.rgCreate = 0 :=
  ⟨(claim_C2_amended wAuto (by rfl)).1 ⟨rfl, rfl⟩,
   (claim_C2_amended wBase (by rfl)).2 (by decide)⟩

/-- C3: whenever a required environment variable is falsy (absent or empty),
the run is exactly one stderr error naming a variable followed by
`sys.exit(1)`, with no provider-API call issued. -/
theorem claim_C3_env_fail (w : World) (h : missingRequiredVar w.env = true) :
    ∃ v, run w = [Event.printStderr (envErrMsg v), Event.exit 1] ∧
      apiCalls (run w) = [] := by
  obtain ⟨v, hv⟩ := run_credsFail w h
  refine ⟨v, hv, ?_⟩
  rw [hv]
  rfl

/-- Witness for C3 at the empty environment. -/
theorem claim_C3_env_fail_witness :
    ∃ v, run wEmpty = [Event.printStderr (envErrMsg v), Event.exit 1] ∧
      apiCalls (run wEmpty) = [] :=
  claim_C3_env_fail wEmpty (by rfl)

/-- C4: the polling loop runs with `timeout = 300` and `interval = 10`, hence
at most 30 iterations; it performs some `n ≤ 30` iterations of exactly one
10-second sleep and one GET each, stops at the first truthy IP (all earlier
polls falsy), and otherwise stops exactly when `elapsed` reaches the
timeout — so it always terminates. -/
theorem claim_C4_poll_bounded (w : World) (rg pn : String) (ip : Option String) (idx : Nat) :
    timeout = 300 ∧ interval = 10 ∧ timeout / interval = 30 ∧
    ∃ n, n ≤ 30 ∧
      pollLoop w rg pn ip idx (timeout / interval) 0 =
        (pollEvs rg pn n, pollVal w ip idx n, interval * n) ∧
      (pollEvs rg pn n).length = 2 * n ∧
      (∀ k, k < n → truthyO (pollVal w ip idx k) = false) ∧
      (truthyO (pollVal w ip idx n) = true ∨ interval * n = timeout) := by
  refine ⟨rfl, rfl, by decide, ?_⟩
  obtain ⟨n, hn, heq, hmin, hend⟩ :=
    pollLoop_spec w rg pn (timeout / interval) ip idx 0 (by decide)
  have h30 : timeout / interval = 30 := by decide
  rw [h30] at hn
  refine ⟨n, hn, ?_, pollEvs_length rg pn n, hmin, ?_⟩
  · rw [heq]
    simp
  · rcases hend with hend | hend
    · exact Or.inl hend
    · right
      simpa using hend

/-- C9: a required variable that is present but empty is treated exactly like
an absent one — `get_env_variable` prints the error and exits for any falsy
value. -/
theorem claim_C9_empty_env (env : EnvMap) (n : String)
    (h : List.lookup n env = some "" ∨ List.lookup n env = none) :
    get_env_variable env n true none =
      ([Event.printStderr (envErrMsg n), Event.exit 1], none) := by
  apply get_env_fail
  rcases h with h | h <;> simp [envTruthy, truthyO, h]

/-- Witness for C9: a present-but-empty variable and an absent one. -/
theorem claim_C9_empty_env_witness :
    get_env_variable ([("X", "")] : EnvMap) "X" true none =
        ([Event.printStderr (envErrMsg "X"), Event.exit 1], none) ∧
    get_env_variable ([] : EnvMap) "X" true none =
        ([Event.printStderr (envErrMsg "X"), Event.exit 1], none) :=
  ⟨claim_C9_empty_env ([("X", "")] : EnvMap) "X" (Or.inl rfl),
   claim_C9_empty_env ([] : EnvMap) "X" (Or.inr rfl)⟩

end AzureVM

namespace AzureVM

/-- C5: in a run that reaches the poll loop (credentials valid, SSH key
present), a falsy final IP makes the run end with the timeout stderr error
and `sys.exit(1)` without any file write, while a truthy final IP makes the
run write the details file and finish without exiting. -/
theorem claim_C5_poll_outcome (w : World) (hc : credsOk w.env = true)
    (hs : w.sshKeyExists = true) :
    (truthyO (pollFinal w) = false →
      (∀ p c, Event.writeFile p c ∉ run w) ∧
      ∃ l, run w = l ++ [Event.printStderr "Error: Timed out waiting for public IP assignment.",
        Event.exit 1]) ∧
    (truthyO (pollFinal w) = true →
      (∃ c, Event.writeFile infoPath c ∈ run w) ∧ exitFree (run w) = true) := by
  constructor
  · intro hp
    obtain ⟨n, hn, hrun⟩ := run_pollFail w hc hs hp
    constructor
    · intro p c hmem
      rw [hrun] at hmem
      simp [List.mem_cons, List.mem_append, rgPhase_no_writeFile w p c,
        networkEvents_no_writeFile w p c,
        pollEvs_no_writeFile (rg_nameOf w) (pubip_nameOf w) p c n] at hmem
    · refine ⟨Event.print ("Using Azure location: " ++ locationOf w) ::
        (rgPhase w).1 ++ networkEvents w ++
        (Event.apiCreateVirtualMachine (rg_nameOf w) (vm_nameOf w) (locationOf w)
          w.nicId (w.sshKeyContent.trim) ::
         Event.apiGetPublicIP (rg_nameOf w) (pubip_nameOf w) ::
         pollEvs (rg_nameOf w) (pubip_nameOf w) n), ?_⟩
      rw [hrun]
      simp [List.cons_append, List.append_assoc]
  · intro hp
    have hef := run_success_exitFree w hc hs hp
    obtain ⟨n, hn, _, _, _, hrun⟩ := run_success w hef
    refine ⟨⟨infoText (rg_nameOf w) (vm_nameOf w) (locationOf w) ((pollFinal w).getD "")
      ("ssh azureuser@" ++ (pollFinal w).getD ""), ?_⟩, hef⟩
    rw [hrun]
    simp [summaryEvents, List.mem_append, List.mem_cons]

/-- Witness for C5: the poll times out at `wNoIp` (error exit, no file
write); the IP is assigned at `wBase` (file written, no exit). -/
theorem claim_C5_poll_outcome_witness :
    ((∀ p c, Event.writeFile p c ∉ run wNoIp) ∧
      ∃ l, run wNoIp = l ++ [Event.printStderr "Error: Timed out waiting for public IP assignment.",
        Event.exit 1]) ∧
    ((∃ c, Event.writeFile infoPath c ∈ run wBase) ∧ exitFree (run wBase) = true) :=
  ⟨(claim_C5_poll_outcome wNoIp (by rfl) (by rfl)).1 (by rfl),
   (claim_C5_poll_outcome wBase (by rfl) (by rfl)).2 (by rfl)⟩

/-- C6: every run with valid credentials issues exactly the ten NSG rule
creations of `expectedRules`, in that order: one Allow/Inbound/Tcp rule per
port of `[22, 80, 443, 3306, 5432, 6379, 27017, 5000, 8080, 8443]` with
priorities 1000, 1010, ..., 1090. -/
theorem claim_C6_nsg_rules (w : World) (hc : credsOk w.env = true) :
    ruleCalls (run w) = expectedRules := by
  obtain ⟨tail, hrun, htail⟩ := run_split w hc
  have hrg : List.filterMap ruleCall (rgPhase w).1 = [] := by
    rcases rgPhase_shape w with h | h | h <;> rw [h] <;> rfl
  have hnet : List.filterMap ruleCall (networkEvents w) = expectedRules :=
    networkEvents_ruleCalls w
  have htail0 : List.filterMap ruleCall tail = [] := by
    rcases htail with ht | ⟨n, hn, ht | ht⟩ <;> rw [ht]
    · rfl
    · simp [List.filterMap_cons, List.filterMap_append, ruleCall,
        pollEvs_filterMap_nil ruleCall _ _ rfl rfl n]
    · simp [List.filterMap_cons, List.filterMap_append, ruleCall,
        pollEvs_filterMap_nil ruleCall _ _ rfl rfl n, summaryEvents]
  rw [hrun]
  simp only [ruleCalls, List.filterMap_append, List.filterMap_cons]
  simp [ruleCall, hrg, hnet, htail0]

/-- Witness for C6 at `wBase`. -/
theorem claim_C6_nsg_rules_witness : ruleCalls (run wBase) = expectedRules :=
  claim_C6_nsg_rules wBase (by rfl)

/-- C7: every successful run writes to `/tmp/azure-instance-info.txt` the
info text built from the run's resource-group name, VM name, location,
assigned public IP and the command `ssh azureuser@<ip>`, and that text
contains each of those five strings. -/
theorem claim_C7_details_file (w : World) (h : exitFree (run w) = true) :
    Event.writeFile "/tmp/azure-instance-info.txt"
        (infoText (rg_nameOf w) (vm_nameOf w) (locationOf w) ((pollFinal w).getD "")
          ("ssh azureuser@" ++ (pollFinal w).getD "")) ∈ run w ∧
    containsStr (infoText (rg_nameOf w) (vm_nameOf w) (locationOf w) ((pollFinal w).getD "")
        ("ssh azureuser@" ++ (pollFinal w).getD "")) (rg_nameOf w) ∧
    containsStr (infoText (rg_nameOf w) (vm_nameOf w) (locationOf w) ((pollFinal w).getD "")
        ("ssh azureuser@" ++ (pollFinal w).getD "")) (vm_nameOf w) ∧
    containsStr (infoText (rg_nameOf w) (vm_nameOf w) (locationOf w) ((pollFinal w).getD "")
        ("ssh azureuser@" ++ (pollFinal w).getD "")) (locationOf w) ∧
    containsStr (infoText (rg_nameOf w) (vm_nameOf w) (locationOf w) ((pollFinal w).getD "")
        ("ssh azureuser@" ++ (pollFinal w).getD "")) ((pollFinal w).getD "") ∧
    containsStr (infoText (rg_nameOf w) (vm_nameOf w) (locationOf w) ((pollFinal w).getD "")
        ("ssh azureuser@" ++ (pollFinal w).getD "")) ("ssh azureuser@" ++ (pollFinal w).getD "") := by
  obtain ⟨n, hn, hc, hs, hb, hrun⟩ := run_success w h
  refine ⟨?_, infoText_contains_rg _ _ _ _ _, infoText_contains_vm _ _ _ _ _,
    infoText_contains_loc _ _ _ _ _, infoText_contains_ip _ _ _ _ _,
    infoText_contains_ssh _ _ _ _ _⟩
  rw [hrun]
  simp [summaryEvents, infoPath, List.mem_append, List.mem_cons]

/-- Witness for C7 at `wBase`. -/
theorem claim_C7_details_file_witness :
    Event.writeFile "/tmp/azure-instance-info.txt"
        (infoText (rg_nameOf wBase) (vm_nameOf wBase) (locationOf wBase)
          ((pollFinal wBase).getD "") ("ssh azureuser@" ++ (pollFinal wBase).getD ""))
      ∈ run wBase ∧
    containsStr (infoText (rg_nameOf wBase) (vm_nameOf wBase) (locationOf wBase)
        ((pollFinal wBase).getD "") ("ssh azureuser@" ++ (pollFinal wBase).getD ""))
      (rg_nameOf wBase) ∧
    containsStr (infoText (rg_nameOf wBase) (vm_nameOf wBase) (locationOf wBase)
        ((pollFinal wBase).getD "") ("ssh azureuser@" ++ (pollFinal wBase).getD ""))
      (vm_nameOf wBase) ∧
    containsStr (infoText (rg_nameOf wBase) (vm_nameOf wBase) (locationOf wBase)
        ((pollFinal wBase).getD "") ("ssh azureuser@" ++ (pollFinal wBase).getD ""))
      (locationOf wBase) ∧
    containsStr (infoText (rg_nameOf wBase) (vm_nameOf wBase) (locationOf wBase)
        ((pollFinal wBase).getD "") ("ssh azureuser@" ++ (pollFinal wBase).getD ""))
      ((pollFinal wBase).getD "") ∧
    containsStr (infoText (rg_nameOf wBase) (vm_nameOf wBase) (locationOf wBase)
        ((pollFinal wBase).getD "") ("ssh azureuser@" ++ (pollFinal wBase).getD ""))
      ("ssh azureuser@" ++ (pollFinal wBase).getD "") :=
  claim_C7_details_file wBase (by rfl)

/-- C8: no retry and no rollback — in every run (successful or not) the
resource-creation calls carry pairwise distinct (kind, resource-name) keys,
so each resource is created at most once; only the read-only public-IP GETs
repeat, and the event alphabet transcribed from the source contains no delete
or revert operation at all, so none occurs in any trace. -/
theorem claim_C8_no_retry (w : World) : (createOps (run w)).Nodup := by
  rcases (Bool.eq_false_or_eq_true (credsOk w.env)).symm with hc | hc
  · obtain ⟨v, hv⟩ := run_credsFail w (credsFail_missing w.env hc)
    rw [hv]
    simp [createOps, createKey]
  · obtain ⟨tail, hrun, htail⟩ := run_split w hc
    have hnet : List.filterMap createKey (networkEvents w) =
        [(OpKind.vnetCreate, vnet_nameOf w), (OpKind.subnetCreate, "ArmSubnet"),
         (OpKind.nsgCreate, nsg_nameOf w)] ++
        (expectedRules.map (fun r => (OpKind.ruleCreate, r.1))) ++
        [(OpKind.pubipCreate, pubip_nameOf w), (OpKind.nicCreate, nic_nameOf w)] :=
      networkEvents_createOps w
    have htailC : List.filterMap createKey tail = [] ∨
        List.filterMap createKey tail = [(OpKind.vmCreate, vm_nameOf w)] := by
      rcases htail with ht | ⟨n, hn, ht | ht⟩ <;> rw [ht]
      · left; rfl
      · right
        simp [List.filterMap_cons, List.filterMap_append, createKey,
          pollEvs_filterMap_nil createKey _ _ rfl rfl n]
      · right
        simp [List.filterMap_cons, List.filterMap_append, createKey,
          pollEvs_filterMap_nil createKey _ _ rfl rfl n, summaryEvents]
    have hrg := rgPhase_createOps w
    rw [hrun]
    simp only [createOps, List.filterMap_append, List.filterMap_cons] at hrg ⊢
    rw [hnet]
    rcases htailC with ht | ht <;> rw [ht] <;>
      rcases (em (envTruthy w.env "AZURE_RESOURCE_GROUP" = false ∧ w.existingRGs = []))
        with he | he <;>
      [rw [hrg, if_pos he]; rw [hrg, if_neg he]; rw [hrg, if_pos he]; rw [hrg, if_neg he]] <;>
      simp [List.nodup_cons, List.mem_cons, List.mem_append, Prod.mk.injEq, expectedRules,
        createKey]

/-- C10 fails on the code as stated: at `wNoSsh` (SSH key missing,
`AZURE_RESOURCE_GROUP` configured) the script prints the SSH error and exits,
yet no resource-group create was ever issued in that run. -/
theorem claim_C10_counterexample :
    Event.printStderr "Error: SSH public key not found at /root/.ssh/id_rsa.pub" ∈ run wNoSsh ∧
    Event.exit 1 ∈ run wNoSsh ∧
    (opTrace (run wNoSsh)).count OpKind.rgCreate = 0 := by
  refine ⟨by decide, by decide, rfl⟩

/-- C10 amended: with valid credentials and the SSH key file missing, the run
performs the resource-group step (create only in the no-group-found case) and
the vnet, subnet, NSG, rules, public IP and NIC creations, then ends with the
SSH-key stderr error and `sys.exit(1)` — before any VM creation call. -/
theorem claim_C10_amended (w : World) (hc : credsOk w.env = true)
    (hs : w.sshKeyExists = false) :
    ∃ pre l,
      (pre = ([] : List OpKind) ∨ pre = [OpKind.rgList] ∨
        pre = [OpKind.rgList, OpKind.rgCreate]) ∧
      opTrace (run w) = pre ++ [OpKind.vnetCreate, OpKind.subnetCreate, OpKind.nsgCreate]
        ++ List.replicate 10 OpKind.ruleCreate ++ [OpKind.pubipCreate, OpKind.nicCreate] ∧
      run w = l ++ [Event.printStderr ("Error: SSH public key not found at "
                      ++ w.home ++ "/.ssh/id_rsa.pub"),
                    Event.exit 1] := by
  have hrun := run_sshFail w hc hs
  refine ⟨opTrace (rgPhase w).1,
    Event.print ("Using Azure location: " ++ locationOf w) :: (rgPhase w).1 ++ networkEvents w,
    ?_, ?_, ?_⟩
  · rcases rgPhase_shape w with h1 | h1 | h1
    · left; rw [h1]; rfl
    · right; left; rw [h1]; rfl
    · right; right; rw [h1]; rfl
  · rw [hrun]
    have hz : opTrace [Event.printStderr ("Error: SSH public key not found at "
        ++ w.home ++ "/.ssh/id_rsa.pub"), Event.exit 1] = [] := rfl
    simp only [opTrace_append, opTrace_print_cons, networkEvents_opTrace, hz]
    simp [List.append_assoc]
  · rw [hrun]

/-- Witness for C10 amended at `wNoSsh`. -/
theorem claim_C10_amended_witness :
    ∃ pre l,
      (pre = ([] : List OpKind) ∨ pre = [OpKind.rgList] ∨
        pre = [OpKind.rgList, OpKind.rgCreate]) ∧
      opTrace (run wNoSsh) = pre ++ [OpKind.vnetCreate, OpKind.subnetCreate, OpKind.nsgCreate]
        ++ List.replicate 10 OpKind.ruleCreate ++ [OpKind.pubipCreate, OpKind.nicCreate] ∧
      run wNoSsh = l ++ [Event.printStderr ("Error: SSH public key not found at "
                      ++ wNoSsh.home ++ "/.ssh/id_rsa.pub"),
                    Event.exit 1] :=
  claim_C10_amended wNoSsh (by rfl) (by rfl)

end AzureVM
